import Mathlib

/-!
Verification of the OAuth2 token lifecycle manager of `post-assist`:
`OAuthTokenManager` (oauth-token-manager.js) and `StorageManager`
(storage-credentials-manager.js), shallowly embedded in Lean.

Modelling conventions:
* JS string-or-nullish fields become `Option String`; `none` models both
  `null` and `undefined`.  JS truthiness on such a field (`!!x`) is `truthy`:
  `some ""` is falsy, so "present" throughout means truthy.
* The token expiry is held by the JS code as an ISO-8601 string produced by
  `new Date(ms).toISOString()` and read back with `new Date(s).getTime()`,
  which are mutually inverse at millisecond precision; the model stores the
  millisecond timestamp `Option Int` directly.  `Date.now()` becomes an
  explicit `now : Int` argument.
* `localStorage` slots hold JSON text produced by `JSON.stringify` and read
  back with `JSON.parse`, which are mutually inverse on JSON-representable
  records; each slot is modelled as holding the parsed record itself.  A
  missing or unparsable slot (the code catches parse errors and falls back)
  is `none`.
* `fetch` responses are oracle arguments: the parsed JSON body of a token
  endpoint response is a `TokenResponse`; an API response is an
  `HttpResponse` carrying its status.  Thrown JS errors become
  `Except JsError`; because a JS `throw` does not roll back mutations already
  made to `this`, every operation returns the manager state as of the moment
  it returns or throws.
* The fire-and-forget background refresh dispatched by `checkTokenExpiry`
  (`this.refreshAccessToken().catch(...)`) is reported as a `Bool` flag
  (dispatched or not); its asynchronous effects happen in a later turn and
  are not part of the synchronous call being modelled.
* The `onTokenRefresh` callback site is reported as `cb : Option (payload)`:
  `some p` means execution reached the callback invocation with payload `p`
  (the callback itself runs only when configured).
-/

namespace PostAssist

/-- JS truthiness of a string-or-nullish value: `null`/`undefined` and the
empty string are falsy. -/
def truthy : Option String → Bool
  | some s => s ≠ ""
  | none => false

/-- `x || null` for a string-or-nullish value: falsy values collapse to null. -/
def orNull (o : Option String) : Option String :=
  if truthy o then o else none

/-- `x || d` for a string-or-nullish value with a string default. -/
def jsOrStr (o : Option String) (d : String) : String :=
  if truthy o then o.getD "" else d

/-- A thrown JS error: `Error(msg)`, or the `RangeError` raised by
`new Date(NaN).toISOString()` when `expires_in` is missing. -/
inductive JsError where
  | error (msg : String)
  | rangeError
deriving DecidableEq, Repr

/-- The record `saveToStorage` serializes into the manager's localStorage
slot (oauth-token-manager.js lines 43-49), and the shape `loadFromStorage`
reads back. -/
structure StoredRecord where
  clientId : Option String
  clientSecret : Option String
  accessToken : Option String
  refreshToken : Option String
  tokenExpiry : Option Int
deriving DecidableEq, Repr

/-- The mutable fields of an `OAuthTokenManager` instance together with the
localStorage slot under its `storageKey`.  The scope, storage key name,
callbacks and the timer handle are configuration or scheduling state that
never feeds back into these fields and is not modelled. -/
structure MgrState where
  clientId : Option String
  clientSecret : Option String
  accessToken : Option String
  refreshToken : Option String
  tokenExpiry : Option Int
  storage : Option StoredRecord
deriving DecidableEq, Repr

/-- Parsed JSON body of a token-endpoint response
(`{access_token?, refresh_token?, expires_in?, error?}`). -/
structure TokenResponse where
  access_token : Option String
  refresh_token : Option String
  expires_in : Option Int
  error : Option String
deriving DecidableEq, Repr

/-- An HTTP response to an authenticated API request; only the status is
inspected by the code under verification. -/
structure HttpResponse where
  status : Nat
deriving DecidableEq, Repr

/-- Result of an operation on the manager: the returned-or-thrown value, the
manager state at that moment, and the `onTokenRefresh` callback payload if
the callback site was reached. -/
structure OpOut (α : Type) where
  res : Except JsError α
  st : MgrState
  cb : Option (Option String × Option Int)
deriving Repr

/-- The triple returned by a successful `exchangeCodeForTokens`. -/
structure ExchangeResult where
  accessToken : Option String
  refreshToken : Option String
  tokenExpiry : Option Int
deriving DecidableEq, Repr

/-- The object returned by `checkTokenExpiry` when expiry info is known. -/
structure ExpiryInfo where
  expired : Bool
  timeLeft : Int
  minutesLeft : Int
deriving DecidableEq, Repr

/-- The snapshot returned by `getStatus`. -/
structure Status where
  hasAccessToken : Bool
  hasRefreshToken : Bool
  isAuthenticated : Bool
  canAutoRefresh : Bool
  tokenExpiry : Option Int
  expiryInfo : Option ExpiryInfo
deriving DecidableEq, Repr

/-- Result of `makeAuthenticatedRequest`: outcome, final state, number of
API request attempts issued, and number of refresh attempts issued. -/
structure RequestOut where
  res : Except JsError HttpResponse
  st : MgrState
  attempts : Nat
  refreshes : Nat
deriving Repr

namespace OAuthTokenManager

/-- Constructor (lines 5-18): `config.clientId || null`,
`config.clientSecret || null`, token fields null.  `store` is whatever the
localStorage slot holds at construction time (the constructor does not touch
storage). -/
def construct (cid csec : Option String) (store : Option StoredRecord) : MgrState :=
  { clientId := orNull cid
    clientSecret := orNull csec
    accessToken := none
    refreshToken := none
    tokenExpiry := none
    storage := store }

/-- The record literal built by `saveToStorage` (lines 43-49). -/
def recordOf (st : MgrState) : StoredRecord :=
  { clientId := st.clientId
    clientSecret := st.clientSecret
    accessToken := st.accessToken
    refreshToken := st.refreshToken
    tokenExpiry := st.tokenExpiry }

/-- `saveToStorage` (lines 41-56): serialize the five fields into the slot. -/
def saveToStorage (st : MgrState) : MgrState :=
  { st with storage := some (recordOf st) }

/-- `loadFromStorage` (lines 22-38): if the slot holds a parsable record,
merge it (`data.clientId || this.clientId`, `data.accessToken || null`, …)
and return true; otherwise return false and leave the state alone. -/
def loadFromStorage (st : MgrState) : Bool × MgrState :=
  match st.storage with
  | none => (false, st)
  | some data =>
      (true,
       { st with
          clientId := if truthy data.clientId then data.clientId else st.clientId
          clientSecret := if truthy data.clientSecret then data.clientSecret else st.clientSecret
          accessToken := orNull data.accessToken
          refreshToken := orNull data.refreshToken
          tokenExpiry := data.tokenExpiry })

/-- `exchangeCodeForTokens` (lines 98-144): guard on clientId/clientSecret;
on a truthy `access_token`, assign `accessToken`, then `refreshToken` (from
`data.refresh_token`, unconditionally), then compute the expiry from
`expires_in` (throwing `RangeError` if it is missing, after the first two
assignments have already happened), persist, reach the callback, and return
the triple; on a falsy `access_token`, throw `data.error || 'Failed to get
tokens'` without mutating. -/
def exchangeCodeForTokens (st : MgrState) (now : Int) (resp : TokenResponse) :
    OpOut ExchangeResult :=
  if !truthy st.clientId || !truthy st.clientSecret then
    ⟨.error (.error "Client ID and Client Secret are required for token exchange"), st, none⟩
  else if truthy resp.access_token then
    match resp.expires_in with
    | some secs =>
        let st1 := { st with
          accessToken := resp.access_token
          refreshToken := resp.refresh_token
          tokenExpiry := some (now + secs * 1000) }
        ⟨.ok ⟨st1.accessToken, st1.refreshToken, st1.tokenExpiry⟩,
         saveToStorage st1,
         some (st1.accessToken, st1.tokenExpiry)⟩
    | none =>
        ⟨.error .rangeError,
         { st with accessToken := resp.access_token, refreshToken := resp.refresh_token },
         none⟩
  else
    ⟨.error (.error (jsOrStr resp.error "Failed to get tokens")), st, none⟩

/-- `refreshAccessToken` (lines 147-185): guard on
refreshToken/clientId/clientSecret; on a truthy `access_token`, assign
`accessToken`, compute the expiry from `expires_in` (throwing `RangeError`
if missing, after `accessToken` was already assigned), persist, reach the
callback and return the token; on a falsy `access_token`, throw
`data.error || 'Failed to refresh token'` without mutating. -/
def refreshAccessToken (st : MgrState) (now : Int) (resp : TokenResponse) :
    OpOut String :=
  if !truthy st.refreshToken || !truthy st.clientId || !truthy st.clientSecret then
    ⟨.error (.error "Cannot refresh token: missing required credentials"), st, none⟩
  else if truthy resp.access_token then
    match resp.expires_in with
    | some secs =>
        let st1 := { st with
          accessToken := resp.access_token
          tokenExpiry := some (now + secs * 1000) }
        ⟨.ok (resp.access_token.getD ""), saveToStorage st1,
         some (st1.accessToken, st1.tokenExpiry)⟩
    | none =>
        ⟨.error .rangeError, { st with accessToken := resp.access_token }, none⟩
  else
    ⟨.error (.error (jsOrStr resp.error "Failed to refresh token")), st, none⟩

/-- `checkTokenExpiry` (lines 188-210): null when `tokenExpiry` or
`refreshToken` is falsy; otherwise `timeLeft = expiry - now`, a background
refresh is dispatched iff `timeLeft < 5*60*1000 && timeLeft > 0` (the `Bool`
component), and the info object is returned. -/
def checkTokenExpiry (st : MgrState) (now : Int) : Option ExpiryInfo × Bool :=
  if !st.tokenExpiry.isSome || !truthy st.refreshToken then (none, false)
  else
    let expiry := st.tokenExpiry.getD 0
    let timeLeft := expiry - now
    (some { expired := decide (timeLeft ≤ 0)
            timeLeft := timeLeft
            minutesLeft := Int.fdiv timeLeft 60000 },
     decide (timeLeft < 5 * 60 * 1000) && decide (timeLeft > 0))

/-- `getStatus` (lines 239-250): delegates to `checkTokenExpiry` (hence the
dispatched-refresh flag) and derives the snapshot;
`isAuthenticated = !!accessToken && (!expiryInfo || !expiryInfo.expired)`. -/
def getStatus (st : MgrState) (now : Int) : Status × Bool :=
  let info := checkTokenExpiry st now
  ({ hasAccessToken := truthy st.accessToken
     hasRefreshToken := truthy st.refreshToken
     isAuthenticated := truthy st.accessToken &&
       (match info.1 with
        | none => true
        | some i => !i.expired)
     canAutoRefresh := truthy st.refreshToken && truthy st.clientSecret
     tokenExpiry := st.tokenExpiry
     expiryInfo := info.1 },
   info.2)

/-- `clearTokens` (lines 253-258): null the three token fields and persist. -/
def clearTokens (st : MgrState) : MgrState :=
  saveToStorage { st with accessToken := none, refreshToken := none, tokenExpiry := none }

/-- `getAuthHeaders` (lines 261-269): throw if `accessToken` is falsy, else
return the `Authorization: Bearer <token>` header object. -/
def getAuthHeaders (st : MgrState) : Except JsError (List (String × String)) :=
  if !truthy st.accessToken then .error (.error "No access token available")
  else .ok [("Authorization", "Bearer " ++ st.accessToken.getD "")]

/-- `makeAuthenticatedRequest` (lines 272-300): build headers (a throw here
propagates with zero attempts), issue the request (response `resp1`); if its
status is 401 and `refreshToken` is truthy, run `refreshAccessToken` (against
token-endpoint response `refreshResp`; a throw propagates with no second
attempt), rebuild headers and return the second response `resp2` unexamined;
otherwise return `resp1`. -/
def makeAuthenticatedRequest (st : MgrState) (now : Int)
    (resp1 resp2 : HttpResponse) (refreshResp : TokenResponse) : RequestOut :=
  match getAuthHeaders st with
  | .error e => ⟨.error e, st, 0, 0⟩
  | .ok _ =>
    if resp1.status = 401 && truthy st.refreshToken then
      let r := refreshAccessToken st now refreshResp
      match r.res with
      | .error e => ⟨.error e, r.st, 1, 1⟩
      | .ok _ =>
        match getAuthHeaders r.st with
        | .error e => ⟨.error e, r.st, 1, 1⟩
        | .ok _ => ⟨.ok resp2, r.st, 2, 1⟩
    else ⟨.ok resp1, st, 1, 0⟩

end OAuthTokenManager

/-- A localStorage instance as seen through `StorageManager`: an association
list from full storage keys to the parsed records stored under them (setItem
prepends, lookup takes the most recent binding). -/
def Store : Type := List (String × StoredRecord)

namespace StorageManager

/-- `getKey` (storage-credentials-manager.js lines 12-14). -/
def getKey (ns : String) (key : String) : String :=
  ns ++ "_" ++ key

/-- `save` (lines 17-27): stringify the record and setItem it under the
namespaced key. -/
def save (ns : String) (store : Store) (key : String) (data : StoredRecord) : Store :=
  (getKey ns key, data) :: store

/-- `load` (lines 30-40): getItem the namespaced key; absent (or unparsable,
which the code catches) yields the default `null`, modelled as `none`. -/
def load (ns : String) (store : Store) (key : String) : Option StoredRecord :=
  List.lookup (getKey ns key) store

end StorageManager

end PostAssist

namespace PostAssist

open OAuthTokenManager

/-- A truthy string-or-nullish value is in particular non-null. -/
theorem truthy_isSome (o : Option String) (h : truthy o = true) : o.isSome = true := by
  cases o <;> simp [truthy] at h ⊢

/-- Unfolding of `refreshAccessToken` on a fully successful call: all three
credentials truthy, the response carries a truthy `access_token` and an
`expires_in`. -/
theorem refreshAccessToken_success (st : MgrState) (now : Int) (resp : TokenResponse)
    (k : Int) (hrt : truthy st.refreshToken = true) (hci : truthy st.clientId = true)
    (hcs : truthy st.clientSecret = true) (hat : truthy resp.access_token = true)
    (hei : resp.expires_in = some k) :
    refreshAccessToken st now resp =
      ⟨.ok (resp.access_token.getD ""),
       { clientId := st.clientId
         clientSecret := st.clientSecret
         accessToken := resp.access_token
         refreshToken := st.refreshToken
         tokenExpiry := some (now + k * 1000)
         storage := some
           { clientId := st.clientId
             clientSecret := st.clientSecret
             accessToken := resp.access_token
             refreshToken := st.refreshToken
             tokenExpiry := some (now + k * 1000) } },
       some (resp.access_token, some (now + k * 1000))⟩ := by
  unfold refreshAccessToken
  simp [hrt, hci, hcs, hat, hei, saveToStorage, recordOf]

/-- **C1**: `makeAuthenticatedRequest` performs at most two request
attempts and at most one refresh attempt, always; when the first response is
401 and a refresh token is present (and the refresh itself succeeds, which
needs the client credentials and a well-formed token response), exactly one
refresh and one reissue happen and the second response is returned whatever
its status; when the first response is not 401, or no refresh token is
present, the first response is returned unchanged after one attempt and no
refresh. -/
theorem C1_authenticatedRequest_retry_bound (st : MgrState) (now : Int)
    (resp1 resp2 : HttpResponse) (rresp : TokenResponse) :
    ((makeAuthenticatedRequest st now resp1 resp2 rresp).attempts ≤ 2 ∧
     (makeAuthenticatedRequest st now resp1 resp2 rresp).refreshes ≤ 1)
    ∧ (truthy st.accessToken = true → resp1.status = 401 →
        truthy st.refreshToken = true → truthy st.clientId = true →
        truthy st.clientSecret = true → truthy rresp.access_token = true →
        ∀ k : Int, rresp.expires_in = some k →
        (makeAuthenticatedRequest st now resp1 resp2 rresp).res = .ok resp2 ∧
        (makeAuthenticatedRequest st now resp1 resp2 rresp).attempts = 2 ∧
        (makeAuthenticatedRequest st now resp1 resp2 rresp).refreshes = 1)
    ∧ (truthy st.accessToken = true →
        (resp1.status ≠ 401 ∨ truthy st.refreshToken = false) →
        (makeAuthenticatedRequest st now resp1 resp2 rresp).res = .ok resp1 ∧
        (makeAuthenticatedRequest st now resp1 resp2 rresp).st = st ∧
        (makeAuthenticatedRequest st now resp1 resp2 rresp).attempts = 1 ∧
        (makeAuthenticatedRequest st now resp1 resp2 rresp).refreshes = 0) := by
  refine ⟨?_, ?_, ?_⟩
  · unfold makeAuthenticatedRequest
    rcases hga : getAuthHeaders st with e | hs
    · simp
    · by_cases hb : resp1.status = 401 && truthy st.refreshToken
      · simp only [hb, if_true]
        rcases hr : (refreshAccessToken st now rresp).res with e | t
        · simp
        · rcases hga2 : getAuthHeaders (refreshAccessToken st now rresp).st with e | hs2 <;> simp
      · simp [hb]
  · intro hat h401 hrt hci hcs hra k hei
    have hga : getAuthHeaders st = .ok [("Authorization", "Bearer " ++ st.accessToken.getD "")] := by
      unfold getAuthHeaders
      simp [hat]
    have hrefresh := refreshAccessToken_success st now rresp k hrt hci hcs hra hei
    unfold makeAuthenticatedRequest
    rw [hga]
    simp only [h401, hrt, hrefresh]
    simp [getAuthHeaders, hra]
  · intro hat hnot
    have hga : getAuthHeaders st = .ok [("Authorization", "Bearer " ++ st.accessToken.getD "")] := by
      unfold getAuthHeaders
      simp [hat]
    have hb : (resp1.status = 401 && truthy st.refreshToken) = false := by
      rcases hnot with h | h
      · simp [h]
      · simp [h]
    unfold makeAuthenticatedRequest
    rw [hga]
    simp [hb]

/-- Witness for C1: with token `AT1`, refresh token `RT1` and a transport
that answers 401 to both attempts, exactly two attempts and one refresh
happen and the second (still-401) response is returned; with no refresh
token, a 401 first response is returned unchanged. -/
theorem C1_authenticatedRequest_retry_bound_witness :
    (makeAuthenticatedRequest ⟨some "id", some "sec", some "AT1", some "RT1", some 7, none⟩ 0
        ⟨401⟩ ⟨401⟩ ⟨some "AT2", none, some 3600, none⟩).res = .ok ⟨401⟩ ∧
    (makeAuthenticatedRequest ⟨some "id", some "sec", some "AT1", some "RT1", some 7, none⟩ 0
        ⟨401⟩ ⟨401⟩ ⟨some "AT2", none, some 3600, none⟩).attempts = 2 ∧
    (makeAuthenticatedRequest ⟨some "id", some "sec", some "AT1", some "RT1", some 7, none⟩ 0
        ⟨401⟩ ⟨401⟩ ⟨some "AT2", none, some 3600, none⟩).refreshes = 1 ∧
    (makeAuthenticatedRequest ⟨some "id", some "sec", some "AT1", none, some 7, none⟩ 0
        ⟨401⟩ ⟨200⟩ ⟨some "AT2", none, some 3600, none⟩).res = .ok ⟨401⟩ :=
  ⟨((C1_authenticatedRequest_retry_bound _ 0 _ _ _).2.1 (by decide) rfl (by decide)
      (by decide) (by decide) (by decide) 3600 rfl).1,
   ((C1_authenticatedRequest_retry_bound _ 0 _ _ _).2.1 (by decide) rfl (by decide)
      (by decide) (by decide) (by decide) 3600 rfl).2.1,
   ((C1_authenticatedRequest_retry_bound _ 0 _ _ _).2.1 (by decide) rfl (by decide)
      (by decide) (by decide) (by decide) 3600 rfl).2.2,
   ((C1_authenticatedRequest_retry_bound _ 0 _ _ _).2.2 (by decide) (Or.inr (by decide))).1⟩

/-- **C2**: `checkTokenExpiry` returns null iff `tokenExpiry` or
`refreshToken` is missing; otherwise it returns the
`{expired, timeLeft, minutesLeft}` object with `timeLeft = expiry - now` and
`expired ↔ timeLeft ≤ 0`, and dispatches a background refresh iff
`0 < timeLeft < 5` minutes; in particular a refresh-token-bearing credential
whose expiry is in the past yields `expired = true` and no dispatch. -/
theorem C2_checkTokenExpiry_spec (st : MgrState) (now : Int) :
    ((checkTokenExpiry st now).1 = none ↔
      (st.tokenExpiry = none ∨ truthy st.refreshToken = false))
    ∧ (∀ e : Int, st.tokenExpiry = some e → truthy st.refreshToken = true →
        (checkTokenExpiry st now).1 =
          some { expired := decide (e - now ≤ 0)
                 timeLeft := e - now
                 minutesLeft := Int.fdiv (e - now) 60000 } ∧
        ((checkTokenExpiry st now).2 = true ↔
          (0 < e - now ∧ e - now < 5 * 60 * 1000)))
    ∧ (∀ e : Int, st.tokenExpiry = some e → truthy st.refreshToken = true →
        e < now →
        (checkTokenExpiry st now).1 =
          some { expired := true
                 timeLeft := e - now
                 minutesLeft := Int.fdiv (e - now) 60000 } ∧
        (checkTokenExpiry st now).2 = false) := by
  refine ⟨?_, ?_, ?_⟩
  · unfold checkTokenExpiry
    rcases hte : st.tokenExpiry with _ | e <;>
      rcases hrt : truthy st.refreshToken <;> simp
  · intro e hte hrt
    unfold checkTokenExpiry
    simp [hte, hrt]
    omega
  · intro e hte hrt hpast
    have h1 : e - now ≤ 0 := by omega
    have h2 : ¬ (e - now > 0) := by omega
    unfold checkTokenExpiry
    simp [hte, hrt, h1, h2]

/-- Witness for C2 at a concrete expired credential: expiry 1000, now 2000. -/
theorem C2_checkTokenExpiry_spec_witness :
    (checkTokenExpiry ⟨some "id", some "sec", some "AT", some "RT", some 1000, none⟩ 2000).1 =
      some { expired := true, timeLeft := -1000, minutesLeft := -1 } ∧
    (checkTokenExpiry ⟨some "id", some "sec", some "AT", some "RT", some 1000, none⟩ 2000).2 =
      false :=
  (C2_checkTokenExpiry_spec ⟨some "id", some "sec", some "AT", some "RT", some 1000, none⟩
      2000).2.2 1000 rfl (by decide) (by decide)

/-- **C3**: `refreshAccessToken` is atomic on failure — with any of
refreshToken/clientId/clientSecret missing it fails with the configuration
error and returns the state (memory and storage) unchanged; with credentials
present but no `access_token` in the response it fails with the refresh
error and returns the state unchanged. -/
theorem C3_refresh_failure_atomic (st : MgrState) (now : Int) (resp : TokenResponse) :
    ((truthy st.refreshToken = false ∨ truthy st.clientId = false ∨
        truthy st.clientSecret = false) →
      refreshAccessToken st now resp =
        ⟨.error (.error "Cannot refresh token: missing required credentials"), st, none⟩)
    ∧ (truthy st.refreshToken = true → truthy st.clientId = true →
       truthy st.clientSecret = true → truthy resp.access_token = false →
      refreshAccessToken st now resp =
        ⟨.error (.error (jsOrStr resp.error "Failed to refresh token")), st, none⟩) := by
  constructor
  · intro h
    unfold refreshAccessToken
    rcases h with h | h | h <;> simp [h]
  · intro hrt hci hcs hat
    unfold refreshAccessToken
    simp [hrt, hci, hcs, hat]

/-- Witness for C3: a state with no refresh token fails unchanged, and a
state with credentials but an access-token-less response fails unchanged. -/
theorem C3_refresh_failure_atomic_witness :
    refreshAccessToken ⟨some "id", some "sec", some "AT", none, some 7, some ⟨none, none, none, none, none⟩⟩ 0
        ⟨some "AT2", none, some 3600, none⟩ =
      ⟨.error (.error "Cannot refresh token: missing required credentials"),
       ⟨some "id", some "sec", some "AT", none, some 7, some ⟨none, none, none, none, none⟩⟩, none⟩ ∧
    refreshAccessToken ⟨some "id", some "sec", some "AT", some "RT", some 7, none⟩ 0
        ⟨none, none, none, some "invalid_grant"⟩ =
      ⟨.error (.error "invalid_grant"),
       ⟨some "id", some "sec", some "AT", some "RT", some 7, none⟩, none⟩ :=
  ⟨(C3_refresh_failure_atomic _ 0 _).1 (Or.inl (by decide)),
   (C3_refresh_failure_atomic _ 0 _).2 (by decide) (by decide) (by decide) (by decide)⟩

/-- **C4**: a successful refresh with a truthy stored refresh token updates
only `accessToken` and `tokenExpiry`, persists, and reaches the refresh
callback; `refreshToken` (and clientId/clientSecret) after the call equal
their values before it, in memory and in the persisted record. -/
theorem C4_refresh_preserves_refreshToken (st : MgrState) (now : Int)
    (resp : TokenResponse) (k : Int)
    (hrt : truthy st.refreshToken = true) (hci : truthy st.clientId = true)
    (hcs : truthy st.clientSecret = true) (hat : truthy resp.access_token = true)
    (hei : resp.expires_in = some k) :
    (refreshAccessToken st now resp).res = .ok (resp.access_token.getD "") ∧
    (refreshAccessToken st now resp).st.refreshToken = st.refreshToken ∧
    (refreshAccessToken st now resp).st.clientId = st.clientId ∧
    (refreshAccessToken st now resp).st.clientSecret = st.clientSecret ∧
    (refreshAccessToken st now resp).st.accessToken = resp.access_token ∧
    (refreshAccessToken st now resp).st.tokenExpiry = some (now + k * 1000) ∧
    (refreshAccessToken st now resp).st.storage = some
      { clientId := st.clientId
        clientSecret := st.clientSecret
        accessToken := resp.access_token
        refreshToken := st.refreshToken
        tokenExpiry := some (now + k * 1000) } ∧
    (refreshAccessToken st now resp).cb =
      some (resp.access_token, some (now + k * 1000)) := by
  rw [refreshAccessToken_success st now resp k hrt hci hcs hat hei]
  exact ⟨rfl, rfl, rfl, rfl, rfl, rfl, rfl, rfl⟩

/-- Witness for C4: refreshing with stored refresh token `RT1` against a
response `{access_token: AT2, expires_in: 3600}` keeps `RT1`. -/
theorem C4_refresh_preserves_refreshToken_witness :
    (refreshAccessToken ⟨some "id", some "sec", some "AT1", some "RT1", some 7, none⟩ 1000
        ⟨some "AT2", none, some 3600, none⟩).st.refreshToken = some "RT1" ∧
    (refreshAccessToken ⟨some "id", some "sec", some "AT1", some "RT1", some 7, none⟩ 1000
        ⟨some "AT2", none, some 3600, none⟩).st.accessToken = some "AT2" :=
  ⟨(C4_refresh_preserves_refreshToken _ 1000 _ 3600 (by decide) (by decide) (by decide)
      (by decide) rfl).2.1,
   (C4_refresh_preserves_refreshToken _ 1000 _ 3600 (by decide) (by decide) (by decide)
      (by decide) rfl).2.2.2.2.1⟩

/-- **C7**: `getAuthHeaders` throws the no-token error iff `accessToken` is
absent (falsy), and with a token present it returns exactly
`Authorization: Bearer <token>`. -/
theorem C7_getAuthHeaders_iff (st : MgrState) :
    (getAuthHeaders st = .error (.error "No access token available") ↔
      truthy st.accessToken = false)
    ∧ (∀ s : String, st.accessToken = some s → s ≠ "" →
        getAuthHeaders st = .ok [("Authorization", "Bearer " ++ s)]) := by
  constructor
  · unfold getAuthHeaders
    by_cases h : truthy st.accessToken
    · simp [h]
    · simp [eq_false_of_ne_true h]
  · intro s hs hne
    simp [getAuthHeaders, hs, truthy, hne]

/-- Witness for C7 at a concrete state holding token `AT1`. -/
theorem C7_getAuthHeaders_iff_witness :
    getAuthHeaders ⟨some "id", some "sec", some "AT1", none, none, none⟩ =
      .ok [("Authorization", "Bearer " ++ "AT1")] :=
  (C7_getAuthHeaders_iff ⟨some "id", some "sec", some "AT1", none, none, none⟩).2
    "AT1" rfl (by decide)

/-- A state with an access token whose known expiry (t = 0) lies in the past
of `now = 1000`, but no refresh token. -/
def c5state : MgrState :=
  ⟨some "id", some "sec", some "AT", none, some 0, none⟩

/-- **C5 counterexample**: `c5state` holds an accessToken with a known,
already-passed expiry, yet `getStatus` reports `isAuthenticated = true`
(because `checkTokenExpiry` yields null whenever `refreshToken` is missing),
contradicting the claim that such a credential is reported not
authenticated. -/
theorem C5_counterexample :
    truthy c5state.accessToken = true ∧
    c5state.tokenExpiry = some 0 ∧
    (0 : Int) < 1000 ∧
    (getStatus c5state 1000).1.isAuthenticated = true := by
  refine ⟨by decide, rfl, by decide, rfl⟩

/-- **C5 amended**: `getStatus().isAuthenticated` is true iff an accessToken
is present and either no expiry information is available — `tokenExpiry` or
`refreshToken` missing — or the known expiry is strictly in the future; a
past expiry makes it false only when a refreshToken is also present. -/
theorem C5_isAuthenticated_characterization (st : MgrState) (now : Int) :
    (getStatus st now).1.isAuthenticated = true ↔
      (truthy st.accessToken = true ∧
        (st.tokenExpiry = none ∨ truthy st.refreshToken = false ∨
          (∃ e : Int, st.tokenExpiry = some e ∧ now < e))) := by
  unfold getStatus checkTokenExpiry
  rcases hte : st.tokenExpiry with _ | e <;>
    rcases hrt : truthy st.refreshToken with _ | _ <;>
      simp [hte, hrt]

/-- The in-memory invariant claimed by C6: `accessToken` and `tokenExpiry`
are both set or both absent. -/
def accessExpiryInv (st : MgrState) : Prop :=
  st.accessToken.isSome = st.tokenExpiry.isSome

/-- A freshly constructed manager (invariant holds: no tokens) whose
localStorage slot holds a record with an accessToken but no tokenExpiry. -/
def c6state : MgrState :=
  ⟨none, none, none, none, none, some ⟨none, none, some "AT", none, none⟩⟩

/-- **C6 counterexample**: `c6state` satisfies the invariant, but
`loadFromStorage` on its stored record (accessToken present, tokenExpiry
absent) produces a state with `accessToken` set and `tokenExpiry` null,
violating the invariant — so the invariant is not preserved by
`loadFromStorage` for every stored record. -/
theorem C6_counterexample :
    accessExpiryInv c6state ∧
    (loadFromStorage c6state).2.accessToken.isSome = true ∧
    (loadFromStorage c6state).2.tokenExpiry.isSome = false := by
  refine ⟨rfl, by decide, by decide⟩

/-- **C6 amended**: the both-or-neither invariant on
`accessToken`/`tokenExpiry` holds in the constructed state and is preserved
by `clearTokens`, by `refreshAccessToken` and `exchangeCodeForTokens` for
responses that carry an `expires_in` whenever they carry an access token,
and by `loadFromStorage` only under the additional hypothesis that the
stored record's accessToken presence (truthiness) matches its tokenExpiry
presence; a stored record violating that (e.g. accessToken without
tokenExpiry) breaks the invariant. -/
theorem C6_invariant_preservation :
    (∀ (cid csec : Option String) (store : Option StoredRecord),
      accessExpiryInv (construct cid csec store))
    ∧ (∀ st : MgrState, accessExpiryInv st → accessExpiryInv (clearTokens st))
    ∧ (∀ (st : MgrState) (now : Int) (resp : TokenResponse), accessExpiryInv st →
        (truthy resp.access_token = true → resp.expires_in.isSome = true) →
        accessExpiryInv (refreshAccessToken st now resp).st)
    ∧ (∀ (st : MgrState) (now : Int) (resp : TokenResponse), accessExpiryInv st →
        (truthy resp.access_token = true → resp.expires_in.isSome = true) →
        accessExpiryInv (exchangeCodeForTokens st now resp).st)
    ∧ (∀ st : MgrState, accessExpiryInv st →
        (∀ data : StoredRecord, st.storage = some data →
          truthy data.accessToken = data.tokenExpiry.isSome) →
        accessExpiryInv (loadFromStorage st).2) := by
  refine ⟨?_, ?_, ?_, ?_, ?_⟩
  · intro cid csec store
    rfl
  · intro st _
    rfl
  · intro st now resp hinv hwf
    unfold refreshAccessToken
    by_cases hg : !truthy st.refreshToken || !truthy st.clientId || !truthy st.clientSecret
    · simp [hg]
      exact hinv
    · by_cases hat : truthy resp.access_token
      · rcases hei : resp.expires_in with _ | k
        · exact absurd (hwf hat) (by simp [hei])
        · simp [hg, hat, hei, saveToStorage, recordOf, accessExpiryInv]
          have : (resp.access_token).isSome = true := by
            cases h : resp.access_token <;> simp [h, truthy] at hat ⊢
          simp [this]
      · simp [hg, eq_false_of_ne_true hat]
        exact hinv
  · intro st now resp hinv hwf
    unfold exchangeCodeForTokens
    by_cases hg : !truthy st.clientId || !truthy st.clientSecret
    · simp [hg]
      exact hinv
    · by_cases hat : truthy resp.access_token
      · rcases hei : resp.expires_in with _ | k
        · exact absurd (hwf hat) (by simp [hei])
        · simp [hg, hat, hei, saveToStorage, recordOf, accessExpiryInv]
          have : (resp.access_token).isSome = true := by
            cases h : resp.access_token <;> simp [h, truthy] at hat ⊢
          simp [this]
      · simp [hg, eq_false_of_ne_true hat]
        exact hinv
  · intro st hinv hwf
    rcases hs : st.storage with _ | data
    · unfold loadFromStorage
      rw [hs]
      exact hinv
    · have hdata := hwf data hs
      have hgoal : (orNull data.accessToken).isSome = data.tokenExpiry.isSome := by
        rw [← hdata]
        by_cases ht : truthy data.accessToken
        · simp [orNull, ht, truthy_isSome _ ht]
        · simp [orNull, ht, eq_false_of_ne_true ht]
      unfold accessExpiryInv loadFromStorage
      rw [hs]
      exact hgoal

/-- Witness for C6 amended: the preservation parts applied at concrete
states — clearing an authenticated manager, refreshing it against a
well-formed response, and reloading a well-formed stored record. -/
theorem C6_invariant_preservation_witness :
    accessExpiryInv (clearTokens ⟨some "id", some "sec", some "AT", some "RT", some 7, none⟩) ∧
    accessExpiryInv (refreshAccessToken ⟨some "id", some "sec", some "AT", some "RT", some 7, none⟩
      1000 ⟨some "AT2", none, some 3600, none⟩).st ∧
    accessExpiryInv (loadFromStorage
      ⟨none, none, none, none, none, some ⟨some "id", some "sec", some "AT", some "RT", some 7⟩⟩).2 :=
  ⟨C6_invariant_preservation.2.1 _ rfl,
   C6_invariant_preservation.2.2.1 _ 1000 _ rfl (fun _ => by decide),
   C6_invariant_preservation.2.2.2.2 _ rfl (fun data h => by cases h; decide)⟩

/-- **C8**: storage round-trip — saving a five-field credential record (null
fields included) and loading the same namespace and key returns a record
equal to the one saved. -/
theorem C8_storage_roundtrip (ns key : String) (store : Store) (rec : StoredRecord) :
    StorageManager.load ns (StorageManager.save ns store key rec) key = some rec := by
  unfold StorageManager.load StorageManager.save
  simp [List.lookup]

/-- **C9**: `clearTokens` nulls the three token fields together, persists
the cleared record, and leaves `clientId`/`clientSecret` untouched both in
memory and in the persisted record. -/
theorem C9_clearTokens (st : MgrState) :
    clearTokens st =
      { clientId := st.clientId
        clientSecret := st.clientSecret
        accessToken := none
        refreshToken := none
        tokenExpiry := none
        storage := some
          { clientId := st.clientId
            clientSecret := st.clientSecret
            accessToken := none
            refreshToken := none
            tokenExpiry := none } } := by
  unfold clearTokens saveToStorage recordOf
  rfl

/-- **C10**: a successful `exchangeCodeForTokens` sets `refreshToken` to
exactly the response's `refresh_token` field, unconditionally; in
particular, when the response carries an `access_token` but omits
`refresh_token`, any previously held refresh token is replaced by
null/undefined and the erased value is persisted. -/
theorem C10_exchange_overwrites_refreshToken (st : MgrState) (now : Int)
    (resp : TokenResponse) (k : Int)
    (hci : truthy st.clientId = true) (hcs : truthy st.clientSecret = true)
    (hat : truthy resp.access_token = true) (hei : resp.expires_in = some k) :
    (exchangeCodeForTokens st now resp).res =
      .ok ⟨resp.access_token, resp.refresh_token, some (now + k * 1000)⟩ ∧
    (exchangeCodeForTokens st now resp).st.refreshToken = resp.refresh_token ∧
    (exchangeCodeForTokens st now resp).st.storage = some
      { clientId := st.clientId
        clientSecret := st.clientSecret
        accessToken := resp.access_token
        refreshToken := resp.refresh_token
        tokenExpiry := some (now + k * 1000) } := by
  unfold exchangeCodeForTokens
  simp [hci, hcs, hat, hei, saveToStorage, recordOf]

/-- Witness for C10: a manager holding refresh token `OLD` exchanges a code
against a response `{access_token: AT1, expires_in: 3600}` with no
`refresh_token`; afterwards the in-memory and persisted refresh token are
null. -/
theorem C10_exchange_overwrites_refreshToken_witness :
    (exchangeCodeForTokens ⟨some "id", some "sec", none, some "OLD", none, none⟩ 1000
        ⟨some "AT1", none, some 3600, none⟩).st.refreshToken = none ∧
    (exchangeCodeForTokens ⟨some "id", some "sec", none, some "OLD", none, none⟩ 1000
        ⟨some "AT1", none, some 3600, none⟩).st.storage = some
      ⟨some "id", some "sec", some "AT1", none, some 3601000⟩ :=
  ⟨(C10_exchange_overwrites_refreshToken _ 1000 _ 3600 (by decide) (by decide)
      (by decide) rfl).2.1,
   (C10_exchange_overwrites_refreshToken _ 1000 _ 3600 (by decide) (by decide)
      (by decide) rfl).2.2⟩

end PostAssist
